import Mathlib

/-
Verification development for the C-Bus / C-Gate session client
(`cgatesession.py`, `coordinator.py`, `light.py`).

The Python code is shallowly embedded: the regular-expression based line
classifier is translated into executable character-list parsers that follow
the backtracking semantics of the Python patterns on line input (lines carry
no newline characters, so `.` never hits its exclusion); the asynchronous
command exchange is modelled by threading an explicit script of server lines
and recording the I/O actions the code would perform; the coordinator is
modelled with explicit state passing, callbacks abstracted to identifiers and
their invocations recorded as events.
-/

namespace CBus

/- ### Character classes: the ASCII fragments of the `re` classes used -/

/-- Python re class `\s` on the ASCII range: space, tab, newline, carriage
return, vertical tab, form feed. -/
def isPySpace (c : Char) : Bool :=
  c == ' ' || c == '\t' || c == '\n' || c == '\r' || c == '\x0b' || c == '\x0c'

/-- Python re class `\d` on the ASCII range. -/
def isPyDigit (c : Char) : Bool :=
  '0' ≤ c && c ≤ '9'

/-- Numeric value of a digit run, as Python `int()` reads it. -/
def digitsVal (ds : List Char) : Nat :=
  ds.foldl (fun a c => a * 10 + (c.toNat - 48)) 0

/-- Longest prefix satisfying `p`, together with the rest of the input. -/
def takeRun (p : Char → Bool) : List Char → List Char × List Char
  | [] => ([], [])
  | c :: cs =>
    if p c then
      let t := takeRun p cs
      (c :: t.1, t.2)
    else ([], c :: cs)

/-- Case-insensitive literal match (pattern given in lower case): returns the
rest of the input after the pattern. -/
def matchCI : List Char → List Char → Option (List Char)
  | [], rest => some rest
  | _ :: _, [] => none
  | p :: ps, c :: cs => if c.toLower == p then matchCI ps cs else none

/-- Does `pat` occur at the head of the input? -/
def startsWithSub : List Char → List Char → Bool
  | _, [] => true
  | [], _ :: _ => false
  | c :: cs, p :: ps => c == p && startsWithSub cs ps

/-- Substring containment, as the Python `in` operator on strings. -/
def containsSub : List Char → List Char → Bool
  | [], pat => pat.isEmpty
  | c :: cs, pat => startsWithSub (c :: cs) pat || containsSub cs pat

/- ### CODE_RE -/

/-- `CODE_RE = re.compile(r"^(\d{3})\s")` used with `re.match`: a three-digit
status code at the start of the line followed by one whitespace character.
Returns the code when the line matches. -/
def codeOf (line : String) : Option Nat :=
  match line.toList with
  | d1 :: d2 :: d3 :: s :: _ =>
    if isPyDigit d1 && isPyDigit d2 && isPyDigit d3 && isPySpace s then
      some (digitsVal [d1, d2, d3])
    else none
  | _ => none

/- ### Normalized state updates -/

/-- A normalized group update as handed to `_emit_group_update`:
`(project, network, application, group, level)`.  `network` stays a string,
exactly as the regex capture is passed through in the Python code. -/
structure GroupUpdate where
  project : String
  network : String
  app : Nat
  group : Nat
  level : Nat
deriving DecidableEq

/- ### The address fragment shared by the patterns -/

/-- The capture fragment `([^/]+)/(\d+)/(\d+)/(\d+)` (the part after a leading
`//`): a non-empty run of non-slash characters, then three slash-separated
non-empty digit runs.  Greedy matching needs no backtracking here because each
run is delimited by a character its class excludes.  Returns the captures and
the remaining input after the group digits. -/
def parseAddrBody (cs : List Char) : Option (String × String × Nat × Nat × List Char) :=
  let pr := takeRun (fun c => !(c == '/')) cs
  if pr.1.isEmpty then none else
  match pr.2 with
  | '/' :: r1 =>
    let ne := takeRun isPyDigit r1
    if ne.1.isEmpty then none else
    match ne.2 with
    | '/' :: r2 =>
      let ap := takeRun isPyDigit r2
      if ap.1.isEmpty then none else
      match ap.2 with
      | '/' :: r3 =>
        let gr := takeRun isPyDigit r3
        if gr.1.isEmpty then none else
        some (String.mk pr.1, String.mk ne.1, digitsVal ap.1, digitsVal gr.1, gr.2)
      | _ => none
    | _ => none
  | _ => none

/- ### The level token -/

/-- One attempt of `level[=\s]+(\d+)` (case-insensitive) at the head of the
input: the literal `level`, a non-empty run of `=`/whitespace, a non-empty
digit run. -/
def levelTokenAt (cs : List Char) : Option Nat :=
  match matchCI "level".toList cs with
  | none => none
  | some r1 =>
    let sep := takeRun (fun c => c == '=' || isPySpace c) r1
    if sep.1.isEmpty then none else
    let ds := takeRun isPyDigit sep.2
    if ds.1.isEmpty then none else
    some (digitsVal ds.1)

/-- The lazy tail `.*?level[=\s]+(\d+)`: the level token at the earliest
position where it matches, scanning left to right. -/
def findLevelToken : List Char → Option Nat
  | [] => none
  | c :: cs =>
    match levelTokenAt (c :: cs) with
    | some n => some n
    | none => findLevelToken cs

/- ### GROUP_LEVEL_RE -/

/-- One attempt of
`GROUP_LEVEL_RE = //([^/]+)/(\d+)/(\d+)/(\d+).*?level[=\s]+(\d+)`
anchored at the head of the input. -/
def groupLevelAt (cs : List Char) : Option GroupUpdate :=
  match cs with
  | '/' :: '/' :: r =>
    match parseAddrBody r with
    | some (p, n, a, g, rest) =>
      match findLevelToken rest with
      | some lvl => some ⟨p, n, a, g, lvl⟩
      | none => none
    | none => none
  | _ => none

/-- `GROUP_LEVEL_RE.search(line)`: try every start position, the leftmost
successful start wins. -/
def searchGroupLevel : List Char → Option GroupUpdate
  | [] => none
  | c :: cs =>
    match groupLevelAt (c :: cs) with
    | some u => some u
    | none => searchGroupLevel cs

/- ### LIGHTING_RE -/

/-- The captures of `LIGHTING_RE`, the action canonicalized to lower case as
`action.lower()` does in the Python handler. -/
structure LightingMatch where
  action : String
  project : String
  network : String
  app : Nat
  group : Nat
  lvl : Option Nat
deriving DecidableEq

/-- The tail after the action keyword:
`\s+//([^/]+)/(\d+)/(\d+)/(\d+)(?:.*?level[=\s]+(\d+))?` — whitespace, the
address, then an optional level token anywhere later on the line. -/
def lightingTail (cs : List Char) : Option (String × String × Nat × Nat × Option Nat) :=
  let ws := takeRun isPySpace cs
  if ws.1.isEmpty then none else
  match ws.2 with
  | '/' :: '/' :: r =>
    (parseAddrBody r).map (fun x => (x.1, x.2.1, x.2.2.1, x.2.2.2.1, findLevelToken x.2.2.2.2))
  | _ => none

/-- One attempt of
`LIGHTING_RE = lighting\s+(on|off|ramp)\s+//([^/]+)/(\d+)/(\d+)/(\d+)(?:.*?level[=\s]+(\d+))?`
anchored at the head of the input.  The alternation tries `on`, `off`, `ramp`
in that order, each with the full continuation. -/
def lightingAt (cs : List Char) : Option LightingMatch :=
  match matchCI "lighting".toList cs with
  | none => none
  | some r0 =>
    let ws := takeRun isPySpace r0
    if ws.1.isEmpty then none else
    let tryAct := fun (act : String) =>
      match matchCI act.toList ws.2 with
      | none => none
      | some r1 =>
        (lightingTail r1).map
          (fun x => LightingMatch.mk act x.1 x.2.1 x.2.2.1 x.2.2.2.1 x.2.2.2.2)
    match tryAct "on" with
    | some m => some m
    | none =>
      match tryAct "off" with
      | some m => some m
      | none => tryAct "ramp"

/-- `LIGHTING_RE.search(line)`. -/
def searchLighting : List Char → Option LightingMatch
  | [] => none
  | c :: cs =>
    match lightingAt (c :: cs) with
    | some m => some m
    | none => searchLighting cs

/- ### The bare address search used by the state=on / state=off rules -/

/-- One attempt of `//([^/]+)/(\d+)/(\d+)/(\d+)` anchored at the head. -/
def addrAt (cs : List Char) : Option (String × String × Nat × Nat) :=
  match cs with
  | '/' :: '/' :: r =>
    (parseAddrBody r).map (fun x => (x.1, x.2.1, x.2.2.1, x.2.2.2.1))
  | _ => none

/-- `re.search(r"//([^/]+)/(\d+)/(\d+)/(\d+)", line)`. -/
def searchAddr : List Char → Option (String × String × Nat × Nat)
  | [] => none
  | c :: cs =>
    match addrAt (c :: cs) with
    | some a => some a
    | none => searchAddr cs

/- ### The line classifier -/

/-- `CGateSession._handle_event_line`: ordered rules, first match wins, each
branch returns.  Rule 1: any `//addr ... level=N` line → level N.  Rule 2:
`lighting on|off|ramp` → 255 / 0 / the optional level (0 when absent).
Rules 3/4: `state=on` / `state=off` substring (on the lowercased line) plus an
address → 255 / 0; the `state=on` branch returns even when no address is
found, so `state=off` is then never consulted.  At most one update is emitted
per line. -/
def handle_event_line (line : String) : Option GroupUpdate :=
  let cs := line.toList
  match searchGroupLevel cs with
  | some u => some u
  | none =>
    match searchLighting cs with
    | some m =>
      let level : Nat :=
        if m.action = "on" then 255
        else if m.action = "off" then 0
        else m.lvl.getD 0
      some ⟨m.project, m.network, m.app, m.group, level⟩
    | none =>
      let lower := cs.map Char.toLower
      if containsSub lower "state=on".toList then
        (searchAddr cs).map (fun a => ⟨a.1, a.2.1, a.2.2.1, a.2.2.2, 255⟩)
      else if containsSub lower "state=off".toList then
        (searchAddr cs).map (fun a => ⟨a.1, a.2.1, a.2.2.1, a.2.2.2, 0⟩)
      else none

/- ### The command channel -/

/-- The exceptions `_send_and_wait_once` can raise: `ConnectionError` (and
`OSError`, merged here since the code treats them identically) versus the
`RuntimeError` raised for a status code ≥ 400 (the spec's ProtocolError). -/
inductive SendErr where
  | connectionError (msg : String)
  | protocolError (msg : String)
deriving DecidableEq

/-- A command transport: whether the socket is still open, and the script of
lines the server will deliver to `readline` (an exhausted script models the
server closing the connection, so `readline` returns empty).  Scripts stand
for post-greeting traffic — `_open_command_connection` consumes the greeting
line when the connection is opened. -/
structure Conn where
  alive : Bool
  script : List String
deriving DecidableEq

/-- The outcome of one successful exchange: the ordered response lines
(terminal line included), the group updates emitted through
`_handle_event_line` while reading, and the unread rest of the script. -/
structure SendOut where
  lines : List String
  updates : List GroupUpdate
  rest : List String
deriving DecidableEq

/-- The I/O actions of the command pipe that the model records: writing a
command to the transport, and reopening the transport (`_reconnect_cmd`). -/
inductive IOAct where
  | write (cmd : String)
  | reconnect
deriving DecidableEq

/-- The read loop of `_send_and_wait_once`: read a line (an empty read raises
`ConnectionError`), append it to `lines`; if `CODE_RE` does not match, feed
the line to `_handle_event_line` (its updates are recorded) and keep reading;
if it matches, stop. -/
def readLoop : List String → List String → List GroupUpdate → Except SendErr SendOut
  | [], _, _ => .error (.connectionError "C-Gate closed the command connection")
  | line :: restScript, acc, ups =>
    match codeOf line with
    | none => readLoop restScript (acc ++ [line]) (ups ++ (handle_event_line line).toList)
    | some _ => .ok ⟨acc ++ [line], ups, restScript⟩

/-- The exchange of `_send_and_wait_once` once the command has been written:
writing to a closed transport raises at `drain`; otherwise the read loop runs,
and finally the ≥400 `RuntimeError` is raised when the FIRST line of the
response carries a status code ≥ 400 — the check reads `lines[0]`, not the
terminal line. -/
def once_result (cmd : String) (c : Conn) : Except SendErr SendOut :=
  if !c.alive then .error (.connectionError "connection lost")
  else
    match readLoop c.script [] [] with
    | .error e => .error e
    | .ok out =>
      match out.lines.head? with
      | none => .ok out
      | some first =>
        match codeOf first with
        | none => .ok out
        | some c0 =>
          if 400 ≤ c0 then
            .error (.protocolError ("C-Gate error in command " ++ cmd ++ ": " ++ first))
          else .ok out

/-- `_send_and_wait_once`: raise `ConnectionError` (performing no I/O) when
the reader/writer attributes are unset; otherwise write the command exactly
once and run the exchange. -/
def send_and_wait_once (cmd : String) (conn : Option Conn) :
    Except SendErr SendOut × List IOAct :=
  match conn with
  | none => (.error (.connectionError "Command connection not ready"), [])
  | some c => (once_result cmd c, [.write cmd])

/-- The retry loop of `_send_and_wait`, fuelled by the number of attempts it
can still make.  The Python loop raises once `attempt > retries + 1`, so with
parameter `retries` it makes at most `retries + 2` attempts; between failed
attempts it runs `_reconnect_cmd`, which pops the next fresh transport from
the environment `env` (an empty environment models `open_connection` itself
raising, which propagates uncaught).  `RuntimeError` (ProtocolError) is not
caught, so it propagates without any retry. -/
def send_and_wait_go (cmd : String) : Nat → Option Conn → List Conn →
    Except SendErr SendOut × List IOAct
  | 0, _, _ => (.error (.connectionError "no attempts"), [])
  | n + 1, conn, env =>
    match send_and_wait_once cmd conn with
    | (.ok r, acts) => (.ok r, acts)
    | (.error (.protocolError m), acts) => (.error (.protocolError m), acts)
    | (.error (.connectionError m), acts) =>
      if n = 0 then (.error (.connectionError m), acts)
      else
        match env with
        | [] => (.error (.connectionError "reconnect failed"), acts ++ [.reconnect])
        | c :: env2 =>
          let r := send_and_wait_go cmd n (some c) env2
          (r.1, acts ++ .reconnect :: r.2)

/-- `_send_and_wait(cmd, retries)`: at most `retries + 2` attempts. -/
def send_and_wait (cmd : String) (retries : Nat) (conn : Option Conn) (env : List Conn) :
    Except SendErr SendOut × List IOAct :=
  send_and_wait_go cmd (retries + 2) conn env

/-- The default of the `retries` parameter of `_send_and_wait`. -/
def defaultRetries : Nat := 0

/- ### The session -/

/-- The command side of a `CGateSession`: the `_closed` flag and the command
transport (`_cmd_reader`/`_cmd_writer`, present or `None` together). -/
structure Session where
  closed : Bool
  cmdConn : Option Conn
deriving DecidableEq

/-- `close()`: sets `_closed` and closes the writers' sockets; the
reader/writer attributes themselves are NOT cleared. -/
def closeSession (s : Session) : Session :=
  ⟨true, s.cmdConn.map (fun c => ⟨false, c.script⟩)⟩

/-- `send_command`: fail fast with `ConnectionError` when the session is
closed, otherwise `_send_and_wait(cmd)` with the default retries (the command
lock is irrelevant to a single exchange). -/
def send_command (s : Session) (cmd : String) (env : List Conn) :
    Except SendErr SendOut × List IOAct :=
  if s.closed then (.error (.connectionError "C-Gate session closed"), [])
  else send_and_wait cmd defaultRetries s.cmdConn env

/-- The command text chosen by `set_group_level`: `off`/`on`/`ramp` on the
textual path, with no further parameters. -/
def set_group_level_cmd (project network : String) (app group : Nat) (level : Int) : String :=
  let path := "//" ++ project ++ "/" ++ network ++ "/" ++ toString app ++ "/" ++ toString group
  if level ≤ 0 then "off " ++ path
  else if 255 ≤ level then "on " ++ path
  else "ramp " ++ path ++ " " ++ toString level

/-- `set_group_level`: builds the command and sends it through
`_send_and_wait(cmd, retries=1)` directly — it does NOT go through
`send_command`, so the `_closed` check is bypassed. -/
def set_group_level (s : Session) (project network : String) (app group : Nat)
    (level : Int) (env : List Conn) : Except SendErr SendOut × List IOAct :=
  send_and_wait (set_group_level_cmd project network app group level) 1 s.cmdConn env

/- ### The coordinator -/

/-- The cache/registry key `(str(project), str(network), int(app), int(group))`. -/
structure GroupKey where
  project : String
  network : String
  app : Nat
  group : Nat
deriving DecidableEq

/-- `CBusCoordinator` state: the `group_levels` cache and the per-key
subscriber lists, callbacks abstracted to identifiers. -/
structure Coordinator where
  group_levels : GroupKey → Option Nat
  callbacks : GroupKey → List Nat

/-- A freshly constructed coordinator: empty cache, empty subscriber lists
(`defaultdict(list)`). -/
def emptyCoordinator : Coordinator := ⟨fun _ => none, fun _ => []⟩

/-- `CBusCoordinator.register_callback`: appends to the key's list; duplicates
are permitted, nothing is deduplicated. -/
def register_callback (c : Coordinator) (k : GroupKey) (cb : Nat) : Coordinator :=
  { c with callbacks := fun q => if q = k then c.callbacks k ++ [cb] else c.callbacks q }

/-- `CBusCoordinator.unregister_callback`: `list.remove` drops the first
matching entry; a missing entry raises `ValueError`, which is caught — a
no-op. -/
def unregister_callback (c : Coordinator) (k : GroupKey) (cb : Nat) : Coordinator :=
  { c with callbacks := fun q => if q = k then (c.callbacks k).erase cb else c.callbacks q }

/-- `CBusCoordinator.handle_group_update`: stores the level into the cache
(last write wins, no range check), then invokes every callback on a snapshot
copy of the key's list, each invocation isolated from the others' failures.
The returned event list records the invocations `(callback, level)` in
order. -/
def handle_group_update (c : Coordinator) (k : GroupKey) (level : Nat) :
    Coordinator × List (Nat × Nat) :=
  ({ c with group_levels := fun q => if q = k then some level else c.group_levels q },
   (c.callbacks k).map (fun cb => (cb, level)))

/-- `CBusLight._current_level`: the cached level for the key, defaulting to 0
when never observed (`group_levels.get(key, 0)`). -/
def current_level (c : Coordinator) (k : GroupKey) : Nat :=
  (c.group_levels k).getD 0

/- ### The keepalive supervisor -/

/-- The externally visible actions of one keepalive iteration. -/
inductive KAAct where
  | probe
  | logProbeFailure
  | openEvent
  | startEventReader
  | openStatus
  | startStatusReader
deriving DecidableEq

/-- The state `_keepalive` consults: the `_closed` flag and the two streaming
readers (`None` marks the channel dead). -/
structure KAState where
  closed : Bool
  eventReader : Option Conn
  statusReader : Option Conn
deriving DecidableEq

/-- The event-channel repair step of a tick:
`if self._event_reader is None and not self._closed`, reopen, and start a
fresh reader task only when the open produced a reader. -/
def tickEvent (s : KAState) (eventOpen : Option Conn) : Option Conn × List KAAct :=
  if s.eventReader = none ∧ s.closed = false then
    match eventOpen with
    | some c => (some c, [KAAct.openEvent, KAAct.startEventReader])
    | none => (none, [KAAct.openEvent])
  else (s.eventReader, [])

/-- The load-change-channel repair step of a tick, same shape. -/
def tickStatus (s : KAState) (statusOpen : Option Conn) : Option Conn × List KAAct :=
  if s.statusReader = none ∧ s.closed = false then
    match statusOpen with
    | some c => (some c, [KAAct.openStatus, KAAct.startStatusReader])
    | none => (none, [KAAct.openStatus])
  else (s.statusReader, [])

/-- One iteration of the `_keepalive` loop body.  `probeOk` abstracts whether
`send_command("noop")` raised; on a raise the failure is logged and the
iteration `continue`s — the repair steps are skipped.  `eventOpen` and
`statusOpen` are what `_open_event_connection` / `_open_status_connection`
would yield this tick (they return an absent handle on failure rather than
raising). -/
def keepaliveTick (s : KAState) (probeOk : Bool) (eventOpen statusOpen : Option Conn) :
    KAState × List KAAct :=
  if !probeOk then (s, [KAAct.probe, KAAct.logProbeFailure])
  else
    let e := tickEvent s eventOpen
    let t := tickStatus s statusOpen
    (⟨s.closed, e.1, t.1⟩, KAAct.probe :: (e.2 ++ t.2))

/-- The inputs one keepalive tick consumes. -/
structure TickInput where
  probeOk : Bool
  eventOpen : Option Conn
  statusOpen : Option Conn

/-- The `while not self._closed` keepalive loop over a finite schedule of tick
inputs, collecting each tick's actions. -/
def keepaliveLoop : KAState → List TickInput → KAState × List (List KAAct)
  | s, [] => (s, [])
  | s, t :: ts =>
    if s.closed then (s, [])
    else
      let r := keepaliveTick s t.probeOk t.eventOpen t.statusOpen
      let rest := keepaliveLoop r.1 ts
      (rest.1, r.2 :: rest.2)

/- ### Concrete fixtures and trace helpers -/

/-- A healthy post-greeting command transport whose next response is `200 OK`. -/
def freshConn : Conn := ⟨true, ["200 OK"]⟩

/-- A transport whose socket has been lost. -/
def deadConn : Conn := ⟨false, []⟩

/-- A concrete group address. -/
def k0 : GroupKey := ⟨"P", "254", 56, 6⟩

/-- Is an I/O action a command write? -/
def isWrite : IOAct → Bool
  | .write _ => true
  | .reconnect => false

/-- Number of command writes in a trace. -/
def writeCount (acts : List IOAct) : Nat := acts.countP isWrite

/-- Number of transport reopenings in a trace. -/
def reconnectCount (acts : List IOAct) : Nat :=
  acts.countP (fun a => a == IOAct.reconnect)

/- ### Helper lemmas (shared) -/

/-- A send on a dead transport attempts the write and raises `ConnectionError`. -/
lemma once_dead (cmd : String) :
    send_and_wait_once cmd (some deadConn) =
      (.error (.connectionError "connection lost"), [.write cmd]) := rfl

/-- Whenever the transport attributes are set, the very first I/O action of
the retry loop is writing the command. -/
lemma go_writes_first (cmd : String) (c : Conn) (n : Nat) (env : List Conn) :
    (send_and_wait_go cmd (n + 1) (some c) env).2.head? = some (IOAct.write cmd) := by
  cases hr : once_result cmd c with
  | ok r => simp [send_and_wait_go, send_and_wait_once, hr]
  | error e =>
    cases e with
    | protocolError m => simp [send_and_wait_go, send_and_wait_once, hr]
    | connectionError m =>
      by_cases hn : n = 0
      · simp [send_and_wait_go, send_and_wait_once, hr, hn]
      · cases env with
        | nil => simp [send_and_wait_go, send_and_wait_once, hr, hn]
        | cons c2 e2 => simp [send_and_wait_go, send_and_wait_once, hr, hn]

/-- Against a persistently dead transport, a send fuelled for `k + 1` attempts
makes exactly `k + 1` writes and `k` reconnects and then propagates the
connection failure. -/
lemma go_dead (cmd : String) (k : Nat) :
    (send_and_wait_go cmd (k + 1) (some deadConn) (List.replicate k deadConn)).1 =
      .error (.connectionError "connection lost") ∧
    writeCount (send_and_wait_go cmd (k + 1) (some deadConn) (List.replicate k deadConn)).2 =
      k + 1 ∧
    reconnectCount (send_and_wait_go cmd (k + 1) (some deadConn) (List.replicate k deadConn)).2 =
      k := by
  induction k with
  | zero =>
    refine ⟨rfl, rfl, rfl⟩
  | succ n ih =>
    have hstep :
        send_and_wait_go cmd (n + 1 + 1) (some deadConn) (List.replicate (n + 1) deadConn) =
          ((send_and_wait_go cmd (n + 1) (some deadConn) (List.replicate n deadConn)).1,
           IOAct.write cmd :: IOAct.reconnect ::
             (send_and_wait_go cmd (n + 1) (some deadConn) (List.replicate n deadConn)).2) := by
      simp [send_and_wait_go, send_and_wait_once, once_result, deadConn, List.replicate_succ]
    refine ⟨?_, ?_, ?_⟩
    · rw [hstep]; exact ih.1
    · rw [hstep]
      have h2 := ih.2.1
      simp [writeCount, List.countP_cons, isWrite] at h2 ⊢
      omega
    · rw [hstep]
      have h3 := ih.2.2
      simp [reconnectCount, List.countP_cons, isWrite] at h3 ⊢
      omega

/- ### Claim theorems -/

/-- C1 (the code at the failing input): when a stray non-status line precedes
the terminal `401 Bad address` line, `_send_and_wait_once` returns BOTH lines
as a successful response instead of raising: the ≥400 check inspects
`lines[0]` (here the stray line, which carries no status code), not the
terminal line, whose code is 401 ≥ 400.  When the 4xx line comes first it is
`lines[0]` and the error is raised, carrying that line. -/
theorem C1_error_check_reads_first_line :
    send_and_wait_once "get x" (some ⟨true, ["evt stray", "401 Bad address"]⟩) =
      (.ok ⟨["evt stray", "401 Bad address"], [], []⟩, [.write "get x"]) ∧
    codeOf "evt stray" = none ∧
    codeOf "401 Bad address" = some 401 ∧
    send_and_wait_once "get x" (some ⟨true, ["401 Bad address"]⟩) =
      (.error (.protocolError "C-Gate error in command get x: 401 Bad address"),
       [.write "get x"]) :=
  ⟨rfl, rfl, rfl, rfl⟩

/-- C2 (the code at the failing input): a `701 …` state-dump line in a command
response begins with a three-digit code, so `CODE_RE` matches it and the read
loop stops there without ever routing it through `_handle_event_line`; being
also `lines[0]` with 701 ≥ 400, it makes the probe raise.  No update is
emitted, although the classifier would turn the line into one, and the rest of
the dump is left unread on the transport. -/
theorem C2_state_dump_not_classified :
    send_and_wait_once "noop" (some ⟨true, ["701 //MANOR/254/56/6: level=128", "200 OK"]⟩) =
      (.error
        (.protocolError "C-Gate error in command noop: 701 //MANOR/254/56/6: level=128"),
       [.write "noop"]) ∧
    handle_event_line "701 //MANOR/254/56/6: level=128" =
      some ⟨"MANOR", "254", 56, 6, 128⟩ ∧
    codeOf "701 //MANOR/254/56/6: level=128" = some 701 :=
  ⟨rfl, rfl, rfl⟩

/-- C3 counterexample: after `close()`, `set_group_level` does not fail fast —
it writes to the still-set (now dead) command transport, catches the failure,
reopens the transport and retries, and with a healthy reopened transport the
send SUCCEEDS. -/
theorem C3_counterexample :
    set_group_level (closeSession ⟨false, some freshConn⟩) "P" "254" 56 6 128 [freshConn] =
      (.ok ⟨["200 OK"], [], []⟩,
       [.write "ramp //P/254/56/6 128", .reconnect, .write "ramp //P/254/56/6 128"]) :=
  rfl

/-- C3 amended: after the session is closed, sends issued through
`send_command` (and hence `get_group_level` and the keepalive probe) fail fast
with a `ConnectionError` and perform no I/O; but `set_group_level` calls
`_send_and_wait` directly, bypassing the closed check, and its first I/O
action is a write of the command to the transport whenever the transport
attributes are set. -/
theorem C3_close_fails_fast_only_send_command (s : Session) (cmd : String)
    (env : List Conn) (h : s.closed = true) :
    send_command s cmd env =
      (.error (.connectionError "C-Gate session closed"), []) ∧
    ∀ project network : String, ∀ app group : Nat, ∀ level : Int, ∀ c : Conn,
      s.cmdConn = some c →
      (set_group_level s project network app group level env).2.head? =
        some (.write (set_group_level_cmd project network app group level)) := by
  refine ⟨by simp [send_command, h], ?_⟩
  intro project network app group level c hc
  simp only [set_group_level, send_and_wait, hc]
  exact go_writes_first _ _ _ _

/-- C3 witness. -/
theorem C3_close_fails_fast_only_send_command_witness :
    send_command (closeSession ⟨false, some freshConn⟩) "noop" [] =
      (.error (.connectionError "C-Gate session closed"), []) ∧
    (set_group_level (closeSession ⟨false, some freshConn⟩) "P" "254" 56 6 128 []).2.head? =
      some (.write (set_group_level_cmd "P" "254" 56 6 128)) :=
  ⟨(C3_close_fails_fast_only_send_command (closeSession ⟨false, some freshConn⟩) "noop" [] rfl).1,
   (C3_close_fails_fast_only_send_command (closeSession ⟨false, some freshConn⟩) "noop" [] rfl).2
     "P" "254" 56 6 128 ⟨false, ["200 OK"]⟩ rfl⟩

/-- C4 counterexample: the classifier does not clamp — a line whose level
token reads 999 is classified into an update with level 999 > 255, and
`handle_group_update` stores 999 into the cache unchanged. -/
theorem C4_counterexample :
    handle_event_line "701 //H/254/56/6: level=999" = some ⟨"H", "254", 56, 6, 999⟩ ∧
    (handle_group_update emptyCoordinator ⟨"H", "254", 56, 6⟩ 999).1.group_levels
      ⟨"H", "254", 56, 6⟩ = some 999 ∧
    ¬ (999 : Nat) ≤ 255 :=
  ⟨rfl, rfl, by decide⟩

/-- C4 amended: no producer clamps or rejects — the classifier emits the
literal value of the level token and the coordinator stores whatever level it
is handed, including out-of-range values; stored levels lie in [0,255] only
when the produced levels do. -/
theorem C4_no_clamping (c : Coordinator) (k : GroupKey) (level : Nat)
    (h : 255 < level) :
    (handle_group_update c k level).1.group_levels k = some level := by
  simp [handle_group_update]

/-- C4 witness. -/
theorem C4_no_clamping_witness :
    (handle_group_update emptyCoordinator k0 999).1.group_levels k0 = some 999 :=
  C4_no_clamping emptyCoordinator k0 999 (by decide)

/-- C5: on connection failure the command transport is reopened and the send
retried.  The fuel of `_send_and_wait` is `retries + 2` attempts, so with the
default parameter (`retries = 0`) exactly one retry is made: a failing send on
a dead transport produces write–reconnect–write and then, if the retry also
fails, the failure propagates to the caller; if the reopened transport is
healthy the retry succeeds.  Generally, a persistently failing send makes
`retries + 2` writes and `retries + 1` reconnects before propagating. -/
theorem C5_retry_on_connection_failure :
    (∀ cmd, send_and_wait cmd defaultRetries (some deadConn) [deadConn] =
      (.error (.connectionError "connection lost"),
       [.write cmd, .reconnect, .write cmd])) ∧
    (∀ cmd, send_and_wait cmd defaultRetries (some deadConn) [freshConn] =
      (.ok ⟨["200 OK"], [], []⟩, [.write cmd, .reconnect, .write cmd])) ∧
    (∀ retries : Nat, ∀ cmd,
      (send_and_wait cmd retries (some deadConn)
          (List.replicate (retries + 1) deadConn)).1 =
        .error (.connectionError "connection lost") ∧
      writeCount (send_and_wait cmd retries (some deadConn)
          (List.replicate (retries + 1) deadConn)).2 = retries + 2 ∧
      reconnectCount (send_and_wait cmd retries (some deadConn)
          (List.replicate (retries + 1) deadConn)).2 = retries + 1) := by
  refine ⟨fun cmd => rfl, fun cmd => rfl, fun retries cmd => ?_⟩
  exact go_dead cmd (retries + 1)

/-- C6: the classifier is a pure function over ordered rules with first match
winning: the spec's example lines classify exactly as stated, and a line
matching no rule yields no update. -/
theorem C6_classifier_rules :
    handle_event_line "701 //H/254/56/6: level=128" = some ⟨"H", "254", 56, 6, 128⟩ ∧
    handle_event_line "lighting on //H/254/56/6 #x" = some ⟨"H", "254", 56, 6, 255⟩ ∧
    handle_event_line "lighting off //H/254/56/6 #x" = some ⟨"H", "254", 56, 6, 0⟩ ∧
    handle_event_line "lighting ramp //H/254/56/6 level=40 #x" =
      some ⟨"H", "254", 56, 6, 40⟩ ∧
    handle_event_line "lighting ramp //H/254/56/6 #x" = some ⟨"H", "254", 56, 6, 0⟩ ∧
    handle_event_line "unrelated text" = none :=
  ⟨rfl, rfl, rfl, rfl, rfl, rfl⟩

/-- C7: for every level in [0,255], storing it and then reading it back
through `_current_level` returns it; an address never observed reads as the
default 0. -/
theorem C7_cache_roundtrip (c : Coordinator) (k : GroupKey) (level : Nat)
    (h : level ≤ 255) :
    current_level (handle_group_update c k level).1 k = level ∧
    ∀ q : GroupKey, current_level emptyCoordinator q = 0 := by
  refine ⟨?_, fun q => rfl⟩
  simp [current_level, handle_group_update]

/-- C7 witness. -/
theorem C7_cache_roundtrip_witness :
    current_level (handle_group_update emptyCoordinator k0 200).1 k0 = 200 ∧
    current_level emptyCoordinator k0 = 0 :=
  ⟨(C7_cache_roundtrip emptyCoordinator k0 200 (by decide)).1,
   (C7_cache_roundtrip emptyCoordinator k0 200 (by decide)).2 k0⟩

/-- C8: after `register`, one update invokes the callback exactly once; after
a subsequent `unregister` it is no longer invoked; unregistering an absent
entry is a no-op; registering the same callback twice is kept (no
deduplication), so it is invoked once per registration. -/
theorem C8_registry_fanout (k : GroupKey) (cb : Nat) :
    (handle_group_update (register_callback emptyCoordinator k cb) k 5).2 = [(cb, 5)] ∧
    (handle_group_update
        (unregister_callback (register_callback emptyCoordinator k cb) k cb) k 6).2 = [] ∧
    (∀ c : Coordinator, ∀ k2 : GroupKey, ∀ cb2 : Nat, cb2 ∉ c.callbacks k2 →
      ∀ q : GroupKey, (unregister_callback c k2 cb2).callbacks q = c.callbacks q) ∧
    (handle_group_update
        (register_callback (register_callback emptyCoordinator k cb) k cb) k 5).2 =
      [(cb, 5), (cb, 5)] := by
  refine ⟨?_, ?_, ?_, ?_⟩
  · simp [handle_group_update, register_callback, emptyCoordinator]
  · simp [handle_group_update, unregister_callback, register_callback, emptyCoordinator]
  · intro c k2 cb2 hmem q
    by_cases hq : q = k2
    · subst hq
      simp [unregister_callback, List.erase_of_not_mem hmem]
    · simp [unregister_callback, hq]
  · simp [handle_group_update, register_callback, emptyCoordinator]

/-- C8 witness. -/
theorem C8_registry_fanout_witness :
    (handle_group_update (register_callback emptyCoordinator k0 1) k0 5).2 = [(1, 5)] ∧
    (handle_group_update
        (unregister_callback (register_callback emptyCoordinator k0 1) k0 1) k0 6).2 = [] ∧
    (unregister_callback emptyCoordinator k0 2).callbacks k0 =
      emptyCoordinator.callbacks k0 ∧
    (handle_group_update
        (register_callback (register_callback emptyCoordinator k0 1) k0 1) k0 5).2 =
      [(1, 5), (1, 5)] :=
  ⟨(C8_registry_fanout k0 1).1, (C8_registry_fanout k0 1).2.1,
   (C8_registry_fanout k0 1).2.2.1 emptyCoordinator k0 2 (by simp [emptyCoordinator]) k0,
   (C8_registry_fanout k0 1).2.2.2⟩

/-- C9: `set_group_level` maps the requested level to exactly one protocol
command: level ≤ 0 → `off path`, level ≥ 255 → `on path`, any other level →
`ramp path level` with no further parameters; in particular 0 → off,
255 → on, 128 → ramp … 128. -/
theorem C9_set_level_mapping (project network : String) (app group : Nat)
    (level : Int) :
    (level ≤ 0 → set_group_level_cmd project network app group level =
      "off " ++ ("//" ++ project ++ "/" ++ network ++ "/" ++ toString app ++ "/" ++
        toString group)) ∧
    (255 ≤ level → set_group_level_cmd project network app group level =
      "on " ++ ("//" ++ project ++ "/" ++ network ++ "/" ++ toString app ++ "/" ++
        toString group)) ∧
    (0 < level → level < 255 → set_group_level_cmd project network app group level =
      "ramp " ++ ("//" ++ project ++ "/" ++ network ++ "/" ++ toString app ++ "/" ++
        toString group) ++ " " ++ toString level) ∧
    set_group_level_cmd "P" "254" 56 6 0 = "off //P/254/56/6" ∧
    set_group_level_cmd "P" "254" 56 6 255 = "on //P/254/56/6" ∧
    set_group_level_cmd "P" "254" 56 6 128 = "ramp //P/254/56/6 128" := by
  refine ⟨fun h => ?_, fun h => ?_, fun h1 h2 => ?_, rfl, rfl, rfl⟩
  · simp [set_group_level_cmd, h]
  · have h0 : ¬ level ≤ 0 := by omega
    simp [set_group_level_cmd, h0, h]
  · have h0 : ¬ level ≤ 0 := by omega
    have h255 : ¬ (255 : Int) ≤ level := by omega
    simp [set_group_level_cmd, h0, h255]

/-- C9 witness. -/
theorem C9_set_level_mapping_witness :
    set_group_level_cmd "P" "254" 56 6 0 =
      "off " ++ ("//" ++ "P" ++ "/" ++ "254" ++ "/" ++ toString 56 ++ "/" ++ toString 6) ∧
    set_group_level_cmd "P" "254" 56 6 255 =
      "on " ++ ("//" ++ "P" ++ "/" ++ "254" ++ "/" ++ toString 56 ++ "/" ++ toString 6) ∧
    set_group_level_cmd "P" "254" 56 6 128 =
      "ramp " ++ ("//" ++ "P" ++ "/" ++ "254" ++ "/" ++ toString 56 ++ "/" ++ toString 6) ++
        " " ++ toString (128 : Int) :=
  ⟨(C9_set_level_mapping "P" "254" 56 6 0).1 (by decide),
   (C9_set_level_mapping "P" "254" 56 6 255).2.1 (by decide),
   (C9_set_level_mapping "P" "254" 56 6 128).2.2.1 (by decide) (by decide)⟩

/-- C10 counterexample: on a tick whose liveness probe fails, the loop
`continue`s — even though the event channel's handle is absent (and a fresh
transport would be available), no reopen is attempted on that tick. -/
theorem C10_counterexample :
    keepaliveTick ⟨false, none, none⟩ false (some freshConn) (some freshConn) =
      (⟨false, none, none⟩, [KAAct.probe, KAAct.logProbeFailure]) ∧
    KAAct.openEvent ∉
      (keepaliveTick ⟨false, none, none⟩ false (some freshConn) (some freshConn)).2 ∧
    (⟨false, none, none⟩ : KAState).eventReader = none := by
  refine ⟨rfl, ?_, rfl⟩
  decide

/-- C10 amended: a failed probe is only logged, that tick performs no repair
and never tears the session down, and the loop continues to later ticks
unchanged; on a tick whose probe succeeds, an absent event (resp. load-change)
handle triggers a reopen attempt, and a successful reopen installs the fresh
transport and starts a fresh reader for it. -/
theorem C10_keepalive_repair (s : KAState) (eo so : Option Conn) :
    keepaliveTick s false eo so = (s, [KAAct.probe, KAAct.logProbeFailure]) ∧
    (keepaliveTick s true eo so).1.closed = s.closed ∧
    (s.eventReader = none → s.closed = false →
      KAAct.openEvent ∈ (keepaliveTick s true eo so).2 ∧
      ∀ c : Conn, eo = some c →
        KAAct.startEventReader ∈ (keepaliveTick s true eo so).2 ∧
        (keepaliveTick s true eo so).1.eventReader = some c) ∧
    (s.statusReader = none → s.closed = false →
      KAAct.openStatus ∈ (keepaliveTick s true eo so).2 ∧
      ∀ c : Conn, so = some c →
        KAAct.startStatusReader ∈ (keepaliveTick s true eo so).2 ∧
        (keepaliveTick s true eo so).1.statusReader = some c) ∧
    (∀ ts : List TickInput, s.closed = false →
      keepaliveLoop s (⟨false, eo, so⟩ :: ts) =
        ((keepaliveLoop s ts).1,
         [KAAct.probe, KAAct.logProbeFailure] :: (keepaliveLoop s ts).2)) := by
  refine ⟨rfl, rfl, ?_, ?_, ?_⟩
  · intro h1 h2
    refine ⟨?_, ?_⟩
    · cases eo <;> cases so <;>
        simp [keepaliveTick, tickEvent, tickStatus, h1, h2]
    · intro c hc
      subst hc
      constructor <;> cases so <;>
        simp [keepaliveTick, tickEvent, tickStatus, h1, h2]
  · intro h1 h2
    refine ⟨?_, ?_⟩
    · cases eo <;> cases so <;>
        simp [keepaliveTick, tickEvent, tickStatus, h1, h2]
    · intro c hc
      subst hc
      constructor <;> cases eo <;>
        simp [keepaliveTick, tickEvent, tickStatus, h1, h2]
  · intro ts h
    simp [keepaliveLoop, keepaliveTick, h]

/-- C10 witness. -/
theorem C10_keepalive_repair_witness :
    keepaliveTick ⟨false, none, some freshConn⟩ false (some freshConn) none =
      (⟨false, none, some freshConn⟩, [KAAct.probe, KAAct.logProbeFailure]) ∧
    KAAct.openEvent ∈
      (keepaliveTick ⟨false, none, some freshConn⟩ true (some freshConn) none).2 ∧
    KAAct.startEventReader ∈
      (keepaliveTick ⟨false, none, some freshConn⟩ true (some freshConn) none).2 ∧
    (keepaliveTick ⟨false, none, some freshConn⟩ true (some freshConn) none).1.eventReader =
      some freshConn ∧
    keepaliveLoop ⟨false, none, some freshConn⟩ [⟨false, some freshConn, none⟩] =
      ((keepaliveLoop ⟨false, none, some freshConn⟩ []).1,
       [KAAct.probe, KAAct.logProbeFailure] ::
         (keepaliveLoop ⟨false, none, some freshConn⟩ []).2) := by
  have h := C10_keepalive_repair ⟨false, none, some freshConn⟩ (some freshConn) none
  have he := h.2.2.1 rfl rfl
  exact ⟨h.1, he.1, (he.2 freshConn rfl).1, (he.2 freshConn rfl).2, h.2.2.2.2 [] rfl⟩

end CBus
